import Mathlib

/-!
Verification of the FermaSense dashboard serial core
(`src/fermasense_dashboard/app.py`).

The development shallowly embeds the pieces of `app.py` that the claims
are about:

* the line-protocol codec inlined in `serial_reader_thread`
  (app.py lines 153-232), here `decodeLine`;
* the command gateway `send_command_to_mcu` (lines 262-305) and its HTTP
  entry point `send_command_route` (lines 251-260);
* the connect-success path of the supervisor (lines 113-136), here
  `onOpenSuccess`;
* the port-reselection handler `handle_set_serial_port` (lines 440-484).

Python primitives used by that code (`str.split(",")`, `float(...)`,
`int(...)`, `str.strip()`, `str.lower()`) are modelled explicitly below.
Machine floats in the payloads are modelled as rationals: the claims only
concern which strings convert successfully and that the converted value of
the corresponding field is stored, never float rounding.  Exceptions are
modelled with `Except PyExc`, so that the try/except structure of the
source is explicit and totality of decoding is a theorem rather than a
triviality.
-/

namespace FermaSense

/-! ### Models of the Python primitives -/

/-- Characters stripped by Python `str.strip()` (ASCII whitespace). -/
def isPySpace (c : Char) : Bool :=
  c = ' ' ∨ c = '\t' ∨ c = '\n' ∨ c = '\r' ∨ c = '\x0b' ∨ c = '\x0c'

/-- Strip leading and trailing whitespace from a character list. -/
def pyStrip (l : List Char) : List Char :=
  ((l.dropWhile isPySpace).reverse.dropWhile isPySpace).reverse

/-- Consume an optional leading sign; returns (isNegative, rest). -/
def parseSign : List Char → Bool × List Char
  | '+' :: r => (false, r)
  | '-' :: r => (true, r)
  | l => (false, l)

/-- Numeric value of a digit string (most significant first). -/
def digitsVal (l : List Char) : ℕ :=
  l.foldl (fun a c => a * 10 + (c.toNat - 48)) 0

/-- Exact rational value of a signed decimal literal with integer digits
`ip`, fractional digits `fp` and decimal exponent `ex`.  Built from the
kernel-computable `mkRat` so that concrete instances evaluate by `decide`. -/
def pyDecimal (neg : Bool) (ip fp : List Char) (ex : ℤ) : ℚ :=
  let v : ℚ :=
    if 0 ≤ ex then
      mkRat (Int.ofNat (digitsVal (ip ++ fp) * Nat.pow 10 ex.toNat)) (Nat.pow 10 fp.length)
    else
      mkRat (Int.ofNat (digitsVal (ip ++ fp))) (Nat.pow 10 fp.length * Nat.pow 10 (-ex).toNat)
  if neg then -v else v

/-- Model of Python `float(s)` on decimal literals: optional surrounding
whitespace, optional sign, integer digits and/or a fractional part after a
single dot, and an optional `e`/`E` exponent.  Returns the exact rational
value on success and `none` when Python would raise `ValueError`.
(Grouping underscores and the `inf`/`nan` spellings are not modelled; the
device protocol never produces them and every claim about numeric fields is
conditioned on successful conversion.) -/
def pyFloat (s : String) : Option ℚ :=
  let l0 := pyStrip s.data
  let sn := parseSign l0
  let ipr := sn.2.span Char.isDigit
  let fpr :=
    match ipr.2 with
    | '.' :: t => t.span Char.isDigit
    | _ => ([], ipr.2)
  if ipr.1 = [] ∧ fpr.1 = [] then none
  else
    match fpr.2 with
    | [] => some (pyDecimal sn.1 ipr.1 fpr.1 0)
    | e :: t =>
      if e = 'e' ∨ e = 'E' then
        let esn := parseSign t
        let edr := esn.2.span Char.isDigit
        if edr.1 = [] ∨ edr.2 ≠ [] then none
        else
          let ex : ℤ :=
            if esn.1 then -Int.ofNat (digitsVal edr.1) else Int.ofNat (digitsVal edr.1)
          some (pyDecimal sn.1 ipr.1 fpr.1 ex)
      else none

/-- Model of Python `int(s)` (base 10): optional surrounding whitespace,
optional sign, one or more digits.  `none` when Python raises `ValueError`. -/
def pyInt (s : String) : Option ℤ :=
  let l0 := pyStrip s.data
  let sn := parseSign l0
  if sn.2 ≠ [] ∧ sn.2.all Char.isDigit then
    some (if sn.1 then -Int.ofNat (digitsVal sn.2) else Int.ofNat (digitsVal sn.2))
  else none

/-- Python exceptions relevant to the reader loop: `ValueError` (raised by
`float`/`int` conversions) versus anything else. -/
inductive PyExc
  | valueError (msg : String)
  | otherExc (msg : String)
deriving Repr, DecidableEq

/-- Message carried by an exception. -/
def PyExc.message : PyExc → String
  | .valueError m => m
  | .otherExc m => m

instance {ε α : Type} [DecidableEq ε] [DecidableEq α] : DecidableEq (Except ε α) :=
  fun a b =>
    match a, b with
    | .ok x, .ok y =>
      if h : x = y then .isTrue (by rw [h]) else .isFalse (fun c => h (Except.ok.inj c))
    | .error e, .error f =>
      if h : e = f then .isTrue (by rw [h]) else .isFalse (fun c => h (Except.error.inj c))
    | .ok _, .error _ => .isFalse (fun c => Except.noConfusion c)
    | .error _, .ok _ => .isFalse (fun c => Except.noConfusion c)

/-- Python `float(s)` as a raising computation. -/
def pyFloatE (s : String) : Except PyExc ℚ :=
  match pyFloat s with
  | some q => .ok q
  | none => .error (.valueError ("could not convert string to float: " ++ s))

/-- Python `int(s)` as a raising computation. -/
def pyIntE (s : String) : Except PyExc ℤ :=
  match pyInt s with
  | some n => .ok n
  | none => .error (.valueError ("invalid literal for int() with base 10: " ++ s))

/-- Comma split on a character list; mirrors Python `str.split(",")`
(never returns the empty list; the empty string gives `[[]]`). -/
def splitCommaChars : List Char → List (List Char)
  | [] => [[]]
  | c :: cs =>
    if c = ',' then [] :: splitCommaChars cs
    else
      match splitCommaChars cs with
      | [] => [[c]]
      | g :: gs => (c :: g) :: gs

/-- Model of Python `line.split(",")`. -/
def pySplit (s : String) : List String :=
  (splitCommaChars s.data).map String.mk

/-- Model of Python `str.lower()` as used on the protocol tags. -/
def lowerTag (s : String) : String :=
  String.mk (s.data.map Char.toLower)

/-- Python rendering of the nullable port name inside an f-string
(`None` prints as the text `None`). -/
def pyShowOptStr : Option String → String
  | some s => s
  | none => "None"

/-! ### The device events produced by the reader loop

The reader loop in `serial_reader_thread` (app.py lines 158-213) classifies
each received line and emits socket events.  `DeviceEvent` is the typed view
of those emissions: `telemetry` stands for a `new_data` emission,
`equalizationComplete` for an `equalization_update` emission,
`statusSnapshot` for an `initial_status` emission, `deviceLog ty msg` for an
`mcu_log` emission of that type, and `unrecognizedLine line` for the
`mcu_log` of type `unknown` with message `MCU_UNKNOWN: line`.  The CSV
appends accompanying `telemetry`/`equalizationComplete` happen in the log
sink, which the spec treats as an external collaborator, so they are not
part of the event model. -/

inductive DeviceEvent
  | telemetry (mcu_time_s current_temp set_temp_min set_temp_max : ℚ)
      (state mode : String)
  | equalizationComplete (target_temp duration_s : ℚ)
  | statusSnapshot (mcu_time_s current_temp set_temp_min set_temp_max : ℚ)
      (state mode : String) (frequency_ms : ℤ) (is_equalizing : Bool)
      (setpoint_change_time_s : ℚ)
  | deviceLog (level message : String)
  | unrecognizedLine (raw : String)
deriving Repr, DecidableEq

/-- Body of the `DATA` branch (app.py lines 163-174): the payload
construction, which converts fields 2-5 with `float` in order and may raise
`ValueError`. -/
def dataBody (parts : List String) : Except PyExc (List DeviceEvent) :=
  match pyFloatE (parts.getD 1 "") with
  | .error e => .error e
  | .ok a =>
    match pyFloatE (parts.getD 2 "") with
    | .error e => .error e
    | .ok b =>
      match pyFloatE (parts.getD 3 "") with
      | .error e => .error e
      | .ok c =>
        match pyFloatE (parts.getD 4 "") with
        | .error e => .error e
        | .ok d =>
          .ok [.telemetry a b c d (parts.getD 5 "") (parts.getD 6 "")]

/-- Body of the `EQUALIZED` branch (app.py lines 179-187): converts fields
2 and 4 with `float`, emits the chart event and an info log quoting fields
2, 3 and 4 verbatim. -/
def equalizedBody (parts : List String) : Except PyExc (List DeviceEvent) :=
  match pyFloatE (parts.getD 1 "") with
  | .error e => .error e
  | .ok t =>
    match pyFloatE (parts.getD 3 "") with
    | .error e => .error e
    | .ok d =>
      .ok [.equalizationComplete t d,
           .deviceLog "info"
             ("Equalized to " ++ parts.getD 1 "" ++ "-" ++ parts.getD 2 ""
               ++ "Â°C in " ++ parts.getD 3 "" ++ "s")]

/-- Body of the `STATUS` branch (app.py lines 192-204): converts fields
2-5 with `float`, field 8 with `int`, compares field 9 against
`TIMING_EQ`, and converts field 10 with `float`. -/
def statusBody (parts : List String) : Except PyExc (List DeviceEvent) :=
  match pyFloatE (parts.getD 1 "") with
  | .error e => .error e
  | .ok a =>
    match pyFloatE (parts.getD 2 "") with
    | .error e => .error e
    | .ok b =>
      match pyFloatE (parts.getD 3 "") with
      | .error e => .error e
      | .ok c =>
        match pyFloatE (parts.getD 4 "") with
        | .error e => .error e
        | .ok d =>
          match pyIntE (parts.getD 7 "") with
          | .error e => .error e
          | .ok f =>
            match pyFloatE (parts.getD 9 "") with
            | .error e => .error e
            | .ok sp =>
              .ok [.statusSnapshot a b c d (parts.getD 5 "") (parts.getD 6 "")
                    f (parts.getD 8 "" == "TIMING_EQ") sp]

/-- Python `except ValueError` around a branch body: a `ValueError` is
turned into the handler events, any other exception propagates. -/
def catchValueError (body : Except PyExc (List DeviceEvent))
    (handler : String → List DeviceEvent) : Except PyExc (List DeviceEvent) :=
  match body with
  | .ok es => .ok es
  | .error (.valueError m) => .ok (handler m)
  | .error e => .error e

/-- Python `except Exception` around a branch body: every exception is
turned into the handler events. -/
def catchAllExc (body : Except PyExc (List DeviceEvent))
    (handler : PyExc → List DeviceEvent) : Except PyExc (List DeviceEvent) :=
  match body with
  | .ok es => .ok es
  | .error e => .ok (handler e)

/-- Dispatch on the first comma-separated field (app.py lines 160-213),
given the already-split parts of a non-empty line. -/
def dispatchParts (line : String) (parts : List String) :
    Except PyExc (List DeviceEvent) :=
  if parts.headD "" = "DATA" ∧ parts.length = 7 then
    catchValueError (dataBody parts)
      (fun _ => [.deviceLog "error" ("Data parse error: " ++ line)])
  else if parts.headD "" = "EQUALIZED" ∧ parts.length = 4 then
    catchValueError (equalizedBody parts)
      (fun _ => [.deviceLog "error" ("Equalization parse error: " ++ line)])
  else if parts.headD "" = "STATUS" ∧ 10 ≤ parts.length then
    catchAllExc (statusBody parts)
      (fun e => [.deviceLog "error"
        ("Error parsing STATUS: " ++ e.message ++ " (Line: " ++ line ++ ")")])
  else if parts.headD "" = "INFO" ∨ parts.headD "" = "ERROR"
      ∨ parts.headD "" = "CMD_RECV" ∨ parts.headD "" = "WARN" then
    .ok [.deviceLog (lowerTag (parts.headD "")) line]
  else
    .ok [.unrecognizedLine line]

/-- The codec: classification of one received (already decoded and
stripped) line into device events, mirroring app.py lines 158-213.  The
empty line is skipped by the guard `if line:` and produces no events. -/
def decodeLine (line : String) : Except PyExc (List DeviceEvent) :=
  if line = "" then .ok []
  else dispatchParts line (pySplit line)

/-! ### Command gateway, supervisor connect path and port reselection

State touched by `send_command_to_mcu` and `handle_set_serial_port`: the
global `ser` handle (a pyserial object with a `port` name, an `is_open`
flag, and a behaviour for the next `write`) and the global `SERIAL_PORT`
selection.  `serial_lock` is a `threading.Lock`, which is NOT reentrant: an
`acquire` can succeed only while nobody (including the current thread)
holds the lock.  `send_command_to_mcu` therefore takes a `lockAvailable`
flag saying whether its single `serial_lock.acquire(timeout=2)` call can
succeed. -/

/-- Outcome of a `ser.write(...)` call on an open handle. -/
inductive WriteRes
  | ok
  | serialExc (msg : String)
  | otherExc (msg : String)
deriving Repr, DecidableEq

/-- The global pyserial object `ser` when it is not `None`. -/
structure SerialHandle where
  port : String
  isOpen : Bool
  writeRes : WriteRes
deriving Repr, DecidableEq

/-- Socket emissions made by the gateway and the supervisor
(`socketio.emit("mcu_log", ...)` and `...("serial_port_status", ...)`). -/
inductive Emit
  | mcuLog (ty message : String)
  | serialPortStatus (status message : String) (port : Option String)
deriving Repr, DecidableEq

/-- Everything observable about one `send_command_to_mcu` call: the
returned boolean, the socket emissions, how often and with what outcome
`serial_lock.acquire` ran, whether the `finally` block released the lock,
the arguments of every `ser.write` call, and whether the post-send
`time.sleep(COMMAND_SEND_DELAY)` ran. -/
structure SendTrace where
  result : Bool
  emits : List Emit
  lockAcquireAttempts : Nat
  lockAcquired : Bool
  lockReleased : Bool
  writeAttempts : List String
  postDelay : Bool
deriving Repr, DecidableEq

/-- Model of line 280: the bytes written to the device are the UTF-8
encoding of the command with a single newline terminator appended; at the
character level the wire text is `cmd ++ "\n"`. -/
def encodeCommand (cmd : String) : String :=
  cmd ++ "\n"

/-- Model of `send_command_to_mcu` (app.py lines 262-305).  `lockAvailable`
says whether the single `serial_lock.acquire(timeout=2)` call succeeds
within its bounded wait; `ser` is the global handle at that moment.  The
`try`/`finally` of the source guarantees the release in every branch that
acquired the lock, and the post-send delay runs only on success. -/
def send_command_to_mcu (cmd : String) (lockAvailable : Bool)
    (ser : Option SerialHandle) : SendTrace :=
  if lockAvailable = false then
    { result := false
      emits := [.mcuLog "error" ("Internal server error: Lock timeout sending " ++ cmd)]
      lockAcquireAttempts := 1
      lockAcquired := false
      lockReleased := false
      writeAttempts := []
      postDelay := false }
  else
    match ser with
    | some h =>
      if h.isOpen then
        match h.writeRes with
        | .ok =>
          { result := true
            emits := [.mcuLog "cmd_sent" ("CMD > " ++ cmd)]
            lockAcquireAttempts := 1
            lockAcquired := true
            lockReleased := true
            writeAttempts := [encodeCommand cmd]
            postDelay := true }
        | .serialExc m =>
          { result := false
            emits := [.mcuLog "error" ("Error sending command (SerialException): " ++ m)]
            lockAcquireAttempts := 1
            lockAcquired := true
            lockReleased := true
            writeAttempts := [encodeCommand cmd]
            postDelay := false }
        | .otherExc m =>
          { result := false
            emits := [.mcuLog "error" ("Error sending command (Exception): " ++ m)]
            lockAcquireAttempts := 1
            lockAcquired := true
            lockReleased := true
            writeAttempts := [encodeCommand cmd]
            postDelay := false }
      else
        { result := false
          emits := [.mcuLog "error" "Cannot send command: Serial port unavailable."]
          lockAcquireAttempts := 1
          lockAcquired := true
          lockReleased := true
          writeAttempts := []
          postDelay := false }
    | none =>
      { result := false
        emits := [.mcuLog "error" "Cannot send command: Serial port unavailable."]
        lockAcquireAttempts := 1
        lockAcquired := true
        lockReleased := true
        writeAttempts := []
        postDelay := false }

/-- Trace of a route invocation that never reaches the gateway: no lock
activity, no writes, no emissions. -/
def emptySendTrace : SendTrace :=
  { result := false
    emits := []
    lockAcquireAttempts := 0
    lockAcquired := false
    lockReleased := false
    writeAttempts := []
    postDelay := false }

/-- HTTP-level outcome of the `/send_command_to_mcu` route. -/
inductive RouteResult
  | success (message : String)
  | failure (message : String) (httpStatus : Nat)
deriving Repr, DecidableEq

/-- Model of `send_command_route` (app.py lines 251-260): the gateway entry
point reached by callers.  `command` is `request.form.get("command")`
(`none` when the field is missing); the Python guard `if not command_str`
rejects both the missing field and the empty string before anything else
runs. -/
def send_command_route (command : Option String) (lockAvailable : Bool)
    (ser : Option SerialHandle) : RouteResult × SendTrace :=
  match command with
  | none => (.failure "No command provided." 400, emptySendTrace)
  | some c =>
    if c = "" then (.failure "No command provided." 400, emptySendTrace)
    else
      let t := send_command_to_mcu c lockAvailable ser
      if t.result then
        (.success ("Command \x22" ++ c ++ "\x22 sent."), t)
      else
        (.failure "Failed to send command. MCU not connected or error." 500, t)

/-- Model of the connect-success path of `serial_reader_thread`
(app.py lines 113-136): inside `with serial_lock:` the reader thread holds
`serial_lock`; after `serial.Serial(...)` succeeds it emits the Connected
notifications and calls `send_command_to_mcu("GET_STATUS")`.  Because
`threading.Lock` is not reentrant, the nested
`serial_lock.acquire(timeout=2)` inside that call cannot succeed while the
same lock is held, so the inner send runs with `lockAvailable = false`.
The freshly opened handle is open and would accept the write. -/
def onOpenSuccess (port : String) : List Emit × SendTrace :=
  let connectEmits :=
    [Emit.mcuLog "success" ("Connected to FermaSense on " ++ port),
     Emit.serialPortStatus "success" ("Connected to " ++ port) (some port)]
  let t := send_command_to_mcu "GET_STATUS" false
    (some { port := port, isOpen := true, writeRes := .ok })
  (connectEmits ++ t.emits, t)

/-- The globals read and written by `handle_set_serial_port`:
`SERIAL_PORT`, `ser`, and the last value persisted by `save_config`
(`none` while nothing has been saved yet). -/
structure AppState where
  serialPort : Option String
  ser : Option SerialHandle
  savedPort : Option (Option String)
deriving Repr, DecidableEq

/-- Observable actions of one `handle_set_serial_port` run, in program
order: `mcu_log` broadcast, `ser.close()` call, `save_config()` call, and
the `serial_port_status` emission to the requester. -/
inductive PortAction
  | emitLog (ty message : String)
  | closeSerial (port : String)
  | saveConfig (port : Option String)
  | emitStatus (status message : String) (port : Option String)
deriving Repr, DecidableEq

/-- Model of `handle_set_serial_port` (app.py lines 440-484), run entirely
under `with serial_lock:`.  `newPort` is `data.get("port")`
(`none` when the key is missing, `some ""` for the auto-detect sentinel),
`availablePorts` is the list returned by `get_available_serial_ports()`. -/
def handle_set_serial_port (newPort : Option String)
    (availablePorts : List String) (st : AppState) :
    AppState × List PortAction :=
  let previous := st.serialPort
  let spMsg : Option String × String :=
    if newPort = some "" then
      match availablePorts.head? with
      | some p => (some p, "Auto-detecting. Selected: " ++ p)
      | none => (none, "Auto-detect: No ports found.")
    else
      (newPort, "Serial port explicitly set to: " ++ pyShowOptStr newPort)
  let sp := spMsg.1
  let logActs := [PortAction.emitLog "info" spMsg.2]
  let needsReset : Bool :=
    if sp ≠ previous then true
    else if sp ≠ none ∧ (st.ser = none ∨ (st.ser.map SerialHandle.port) ≠ sp) then true
    else false
  let serClose : Option SerialHandle × List PortAction :=
    if needsReset then
      (none,
       match st.ser with
       | some h => if h.isOpen then [PortAction.closeSerial h.port] else []
       | none => [])
    else (st.ser, [])
  let saveActs := [PortAction.saveConfig sp]
  let statusActs :=
    match sp with
    | some p =>
      match serClose.1 with
      | some h =>
        if h.isOpen ∧ h.port = p then
          [PortAction.emitStatus "success" ("Connected to " ++ p) (some p)]
        else
          [PortAction.emitStatus "info" ("Attempting to use " ++ p) (some p)]
      | none =>
        [PortAction.emitStatus "info" ("Attempting to use " ++ p) (some p)]
    | none =>
      [PortAction.emitStatus "error" "No port selected/available" none]
  ({ serialPort := sp, ser := serClose.1, savedPort := some sp },
   logActs ++ serClose.2 ++ saveActs ++ statusActs)

/-! ### Device-side view of an encoded command (for the round trip) -/

/-- Characters of the wire text before the first newline: the token the
device recovers when it splits the incoming byte stream on `\n` (the UTF-8
encoding maps `\n` to the unique byte 0x0A and no byte of any other encoded
character equals it, so the split happens exactly at this character). -/
def takeUntilNewline : List Char → List Char
  | [] => []
  | c :: cs => if c = '\n' then [] else c :: takeUntilNewline cs

/-- The first newline-terminated token the device reads from the wire. -/
def deviceFirstToken (wire : String) : String :=
  String.mk (takeUntilNewline wire.data)

/-! ### Helper lemmas -/

theorem pyFloatE_ok (s : String) (q : ℚ) (h : pyFloat s = some q) :
    pyFloatE s = Except.ok q := by
  unfold pyFloatE; rw [h]

theorem pyFloatE_err (s : String) (h : pyFloat s = none) :
    pyFloatE s = Except.error (.valueError ("could not convert string to float: " ++ s)) := by
  unfold pyFloatE; rw [h]

theorem pyIntE_ok (s : String) (n : ℤ) (h : pyInt s = some n) :
    pyIntE s = Except.ok n := by
  unfold pyIntE; rw [h]

theorem pyIntE_err (s : String) (h : pyInt s = none) :
    pyIntE s = Except.error (.valueError ("invalid literal for int() with base 10: " ++ s)) := by
  unfold pyIntE; rw [h]

theorem dataBody_eq_ok (parts : List String) (a b c d : ℚ)
    (h1 : pyFloat (parts.getD 1 "") = some a) (h2 : pyFloat (parts.getD 2 "") = some b)
    (h3 : pyFloat (parts.getD 3 "") = some c) (h4 : pyFloat (parts.getD 4 "") = some d) :
    dataBody parts =
      Except.ok [.telemetry a b c d (parts.getD 5 "") (parts.getD 6 "")] := by
  unfold dataBody
  rw [pyFloatE_ok _ _ h1, pyFloatE_ok _ _ h2, pyFloatE_ok _ _ h3, pyFloatE_ok _ _ h4]

theorem dataBody_valueError (parts : List String)
    (h : pyFloat (parts.getD 1 "") = none ∨ pyFloat (parts.getD 2 "") = none ∨
         pyFloat (parts.getD 3 "") = none ∨ pyFloat (parts.getD 4 "") = none) :
    ∃ m, dataBody parts = Except.error (.valueError m) := by
  unfold dataBody
  rcases e1 : pyFloat (parts.getD 1 "") with _ | a
  · rw [pyFloatE_err _ e1]; exact ⟨_, rfl⟩
  rw [pyFloatE_ok _ _ e1]
  rcases e2 : pyFloat (parts.getD 2 "") with _ | b
  · rw [pyFloatE_err _ e2]; exact ⟨_, rfl⟩
  rw [pyFloatE_ok _ _ e2]
  rcases e3 : pyFloat (parts.getD 3 "") with _ | c
  · rw [pyFloatE_err _ e3]; exact ⟨_, rfl⟩
  rw [pyFloatE_ok _ _ e3]
  rcases e4 : pyFloat (parts.getD 4 "") with _ | d
  · rw [pyFloatE_err _ e4]; exact ⟨_, rfl⟩
  exfalso
  rcases h with h | h | h | h
  · rw [e1] at h; exact Option.noConfusion h
  · rw [e2] at h; exact Option.noConfusion h
  · rw [e3] at h; exact Option.noConfusion h
  · rw [e4] at h; exact Option.noConfusion h

theorem dataBody_ok_or_valueError (parts : List String) :
    (∃ es, dataBody parts = Except.ok es) ∨
      ∃ m, dataBody parts = Except.error (.valueError m) := by
  rcases e1 : pyFloat (parts.getD 1 "") with _ | a
  · exact Or.inr (dataBody_valueError parts (Or.inl e1))
  rcases e2 : pyFloat (parts.getD 2 "") with _ | b
  · exact Or.inr (dataBody_valueError parts (Or.inr (Or.inl e2)))
  rcases e3 : pyFloat (parts.getD 3 "") with _ | c
  · exact Or.inr (dataBody_valueError parts (Or.inr (Or.inr (Or.inl e3))))
  rcases e4 : pyFloat (parts.getD 4 "") with _ | d
  · exact Or.inr (dataBody_valueError parts (Or.inr (Or.inr (Or.inr e4))))
  exact Or.inl ⟨_, dataBody_eq_ok parts a b c d e1 e2 e3 e4⟩

theorem equalizedBody_eq_ok (parts : List String) (t d : ℚ)
    (h1 : pyFloat (parts.getD 1 "") = some t)
    (h3 : pyFloat (parts.getD 3 "") = some d) :
    equalizedBody parts =
      Except.ok [.equalizationComplete t d,
        .deviceLog "info"
          ("Equalized to " ++ parts.getD 1 "" ++ "-" ++ parts.getD 2 ""
            ++ "Â°C in " ++ parts.getD 3 "" ++ "s")] := by
  unfold equalizedBody
  rw [pyFloatE_ok _ _ h1, pyFloatE_ok _ _ h3]

theorem equalizedBody_valueError (parts : List String)
    (h : pyFloat (parts.getD 1 "") = none ∨ pyFloat (parts.getD 3 "") = none) :
    ∃ m, equalizedBody parts = Except.error (.valueError m) := by
  unfold equalizedBody
  rcases e1 : pyFloat (parts.getD 1 "") with _ | t
  · rw [pyFloatE_err _ e1]; exact ⟨_, rfl⟩
  rw [pyFloatE_ok _ _ e1]
  rcases e3 : pyFloat (parts.getD 3 "") with _ | d
  · rw [pyFloatE_err _ e3]; exact ⟨_, rfl⟩
  exfalso
  rcases h with h | h
  · rw [e1] at h; exact Option.noConfusion h
  · rw [e3] at h; exact Option.noConfusion h

theorem equalizedBody_ok_or_valueError (parts : List String) :
    (∃ es, equalizedBody parts = Except.ok es) ∨
      ∃ m, equalizedBody parts = Except.error (.valueError m) := by
  rcases e1 : pyFloat (parts.getD 1 "") with _ | t
  · exact Or.inr (equalizedBody_valueError parts (Or.inl e1))
  rcases e3 : pyFloat (parts.getD 3 "") with _ | d
  · exact Or.inr (equalizedBody_valueError parts (Or.inr e3))
  exact Or.inl ⟨_, equalizedBody_eq_ok parts t d e1 e3⟩

theorem statusBody_eq_ok (parts : List String) (a b c d sp : ℚ) (f : ℤ)
    (h1 : pyFloat (parts.getD 1 "") = some a) (h2 : pyFloat (parts.getD 2 "") = some b)
    (h3 : pyFloat (parts.getD 3 "") = some c) (h4 : pyFloat (parts.getD 4 "") = some d)
    (h7 : pyInt (parts.getD 7 "") = some f) (h9 : pyFloat (parts.getD 9 "") = some sp) :
    statusBody parts =
      Except.ok [.statusSnapshot a b c d (parts.getD 5 "") (parts.getD 6 "")
        f (parts.getD 8 "" == "TIMING_EQ") sp] := by
  unfold statusBody
  rw [pyFloatE_ok _ _ h1, pyFloatE_ok _ _ h2, pyFloatE_ok _ _ h3, pyFloatE_ok _ _ h4,
      pyIntE_ok _ _ h7, pyFloatE_ok _ _ h9]

theorem statusBody_error (parts : List String)
    (h : pyFloat (parts.getD 1 "") = none ∨ pyFloat (parts.getD 2 "") = none ∨
         pyFloat (parts.getD 3 "") = none ∨ pyFloat (parts.getD 4 "") = none ∨
         pyInt (parts.getD 7 "") = none ∨ pyFloat (parts.getD 9 "") = none) :
    ∃ e, statusBody parts = Except.error e := by
  unfold statusBody
  rcases e1 : pyFloat (parts.getD 1 "") with _ | a
  · rw [pyFloatE_err _ e1]; exact ⟨_, rfl⟩
  rw [pyFloatE_ok _ _ e1]
  rcases e2 : pyFloat (parts.getD 2 "") with _ | b
  · rw [pyFloatE_err _ e2]; exact ⟨_, rfl⟩
  rw [pyFloatE_ok _ _ e2]
  rcases e3 : pyFloat (parts.getD 3 "") with _ | c
  · rw [pyFloatE_err _ e3]; exact ⟨_, rfl⟩
  rw [pyFloatE_ok _ _ e3]
  rcases e4 : pyFloat (parts.getD 4 "") with _ | d
  · rw [pyFloatE_err _ e4]; exact ⟨_, rfl⟩
  rw [pyFloatE_ok _ _ e4]
  rcases e7 : pyInt (parts.getD 7 "") with _ | f
  · rw [pyIntE_err _ e7]; exact ⟨_, rfl⟩
  rw [pyIntE_ok _ _ e7]
  rcases e9 : pyFloat (parts.getD 9 "") with _ | sp
  · rw [pyFloatE_err _ e9]; exact ⟨_, rfl⟩
  exfalso
  rcases h with h | h | h | h | h | h
  · rw [e1] at h; exact Option.noConfusion h
  · rw [e2] at h; exact Option.noConfusion h
  · rw [e3] at h; exact Option.noConfusion h
  · rw [e4] at h; exact Option.noConfusion h
  · rw [e7] at h; exact Option.noConfusion h
  · rw [e9] at h; exact Option.noConfusion h

theorem catchValueError_of_ok {body : Except PyExc (List DeviceEvent)}
    (handler : String → List DeviceEvent) (es : List DeviceEvent)
    (h : body = Except.ok es) : catchValueError body handler = Except.ok es := by
  rw [h]; rfl

theorem catchValueError_of_valueError {body : Except PyExc (List DeviceEvent)}
    (handler : String → List DeviceEvent) (m : String)
    (h : body = Except.error (.valueError m)) :
    catchValueError body handler = Except.ok (handler m) := by
  rw [h]; rfl

theorem catchValueError_ok {body : Except PyExc (List DeviceEvent)}
    (handler : String → List DeviceEvent)
    (h : (∃ es, body = Except.ok es) ∨ ∃ m, body = Except.error (.valueError m)) :
    ∃ es, catchValueError body handler = Except.ok es := by
  rcases h with ⟨es, he⟩ | ⟨m, he⟩
  · exact ⟨es, catchValueError_of_ok handler es he⟩
  · exact ⟨handler m, catchValueError_of_valueError handler m he⟩

theorem catchAllExc_of_ok {body : Except PyExc (List DeviceEvent)}
    (handler : PyExc → List DeviceEvent) (es : List DeviceEvent)
    (h : body = Except.ok es) : catchAllExc body handler = Except.ok es := by
  rw [h]; rfl

theorem catchAllExc_of_error {body : Except PyExc (List DeviceEvent)}
    (handler : PyExc → List DeviceEvent) (e : PyExc)
    (h : body = Except.error e) : catchAllExc body handler = Except.ok (handler e) := by
  rw [h]; rfl

theorem catchAllExc_ok (body : Except PyExc (List DeviceEvent))
    (handler : PyExc → List DeviceEvent) :
    ∃ es, catchAllExc body handler = Except.ok es := by
  cases body with
  | ok es => exact ⟨es, rfl⟩
  | error e => exact ⟨handler e, rfl⟩

theorem pySplit_empty : pySplit "" = [""] := rfl

theorem line_ne_empty_of_head (line tag : String) (htag : tag ≠ "")
    (h : (pySplit line).headD "" = tag) : line ≠ "" := by
  intro he
  subst he
  rw [pySplit_empty] at h
  exact htag (h ▸ rfl)

theorem decodeLine_eq_dispatch (line : String) (hne : line ≠ "") :
    decodeLine line = dispatchParts line (pySplit line) := by
  unfold decodeLine; rw [if_neg hne]

theorem dispatchParts_data (line : String) (parts : List String)
    (hhead : parts.headD "" = "DATA") (hlen : parts.length = 7) :
    dispatchParts line parts =
      catchValueError (dataBody parts)
        (fun _ => [.deviceLog "error" ("Data parse error: " ++ line)]) := by
  unfold dispatchParts
  rw [if_pos ⟨hhead, hlen⟩]

theorem dispatchParts_equalized (line : String) (parts : List String)
    (hhead : parts.headD "" = "EQUALIZED") (hlen : parts.length = 4) :
    dispatchParts line parts =
      catchValueError (equalizedBody parts)
        (fun _ => [.deviceLog "error" ("Equalization parse error: " ++ line)]) := by
  unfold dispatchParts
  have h1 : ¬(parts.headD "" = "DATA" ∧ parts.length = 7) := by
    rintro ⟨h, -⟩; rw [hhead] at h; exact absurd h (by decide)
  rw [if_neg h1, if_pos ⟨hhead, hlen⟩]

theorem dispatchParts_status (line : String) (parts : List String)
    (hhead : parts.headD "" = "STATUS") (hlen : 10 ≤ parts.length) :
    dispatchParts line parts =
      catchAllExc (statusBody parts)
        (fun e => [.deviceLog "error"
          ("Error parsing STATUS: " ++ e.message ++ " (Line: " ++ line ++ ")")]) := by
  unfold dispatchParts
  have h1 : ¬(parts.headD "" = "DATA" ∧ parts.length = 7) := by
    rintro ⟨h, -⟩; rw [hhead] at h; exact absurd h (by decide)
  have h2 : ¬(parts.headD "" = "EQUALIZED" ∧ parts.length = 4) := by
    rintro ⟨h, -⟩; rw [hhead] at h; exact absurd h (by decide)
  rw [if_neg h1, if_neg h2, if_pos ⟨hhead, hlen⟩]

theorem dispatchParts_ok (line : String) (parts : List String) :
    ∃ es, dispatchParts line parts = Except.ok es := by
  unfold dispatchParts
  split
  · exact catchValueError_ok _ (dataBody_ok_or_valueError parts)
  split
  · exact catchValueError_ok _ (equalizedBody_ok_or_valueError parts)
  split
  · exact catchAllExc_ok _ _
  split
  · exact ⟨_, rfl⟩
  · exact ⟨_, rfl⟩

theorem decodeLine_ok (line : String) : ∃ es, decodeLine line = Except.ok es := by
  unfold decodeLine
  split
  · exact ⟨[], rfl⟩
  · exact dispatchParts_ok _ _

theorem takeUntilNewline_append_newline (l r : List Char) (h : '\n' ∉ l) :
    takeUntilNewline (l ++ '\n' :: r) = l := by
  induction l with
  | nil => simp [takeUntilNewline]
  | cons c cs ih =>
    have hc : ¬(c = '\n') := by
      intro hc; apply h; rw [hc]; exact List.mem_cons_self _ _
    have hcs : '\n' ∉ cs := fun hm => h (List.mem_cons_of_mem _ hm)
    rw [List.cons_append]
    unfold takeUntilNewline
    rw [if_neg hc, ih hcs]

/-! ### Claim theorems -/

/-- C1 (code evidence): on every successful serial open the supervisor does
notify subscribers of the Connected transition and does call
`send_command_to_mcu "GET_STATUS"`, but that call runs while the reader
thread itself holds `serial_lock` (the call site at app.py line 135 is
inside the `with serial_lock:` block opened at line 114, and
`threading.Lock` is not reentrant), so the bounded acquire fails, the send
returns `False`, nothing is ever written to the freshly opened device, and
a lock-timeout diagnostic is emitted instead.  This refutes the part of
the claim saying the GET_STATUS send succeeds. -/
theorem connect_emits_status_but_get_status_send_fails (port : String) :
    (onOpenSuccess port).1 =
      [Emit.mcuLog "success" ("Connected to FermaSense on " ++ port),
       Emit.serialPortStatus "success" ("Connected to " ++ port) (some port),
       Emit.mcuLog "error" "Internal server error: Lock timeout sending GET_STATUS"] ∧
    (onOpenSuccess port).2.result = false ∧
    (onOpenSuccess port).2.writeAttempts = [] := by
  exact ⟨rfl, rfl, rfl⟩

/-- C2 counterexample: reselecting port COM3 while COM3 is already
configured and connected does emit a `serial_port_status` notification to
the requester (a duplicate of the Connected status it already has), so the
claim that no status notification is emitted is false as stated. -/
theorem reselect_same_port_emits_duplicate_status :
    PortAction.emitStatus "success" "Connected to COM3" (some "COM3") ∈
      (handle_set_serial_port (some "COM3") ["COM3"]
        { serialPort := some "COM3"
          ser := some { port := "COM3", isOpen := true, writeRes := WriteRes.ok }
          savedPort := some (some "COM3") }).2 := by
  decide

/-- C2 (amended): reselecting the same already-connected port leaves the
open handle untouched (no close, no reopen, `ser` unchanged), but the
handler still emits an info log, re-saves the configuration, and re-emits a
`serial_port_status` success notification to the requester. -/
theorem reselect_same_connected_port_keeps_handle (port : String)
    (avail : List String) (st : AppState) (h : SerialHandle)
    (hport : port ≠ "") (hsp : st.serialPort = some port)
    (hser : st.ser = some h) (hp : h.port = port) (ho : h.isOpen = true) :
    (handle_set_serial_port (some port) avail st).1.ser = st.ser ∧
    (handle_set_serial_port (some port) avail st).1.serialPort = some port ∧
    (handle_set_serial_port (some port) avail st).2 =
      [PortAction.emitLog "info" ("Serial port explicitly set to: " ++ port),
       PortAction.saveConfig (some port),
       PortAction.emitStatus "success" ("Connected to " ++ port) (some port)] := by
  have hne : ¬((some port : Option String) = some "") := by
    intro hx; exact hport (Option.some.inj hx)
  unfold handle_set_serial_port
  rw [if_neg hne]
  simp [hsp, hser, hp, ho, pyShowOptStr]

/-- C2 amended-claim witness at a concrete state. -/
theorem reselect_same_connected_port_keeps_handle_witness :
    (handle_set_serial_port (some "COM4") ["COM4", "COM5"]
      { serialPort := some "COM4"
        ser := some { port := "COM4", isOpen := true, writeRes := WriteRes.ok }
        savedPort := none }).1.ser =
      some { port := "COM4", isOpen := true, writeRes := WriteRes.ok } ∧
    (handle_set_serial_port (some "COM4") ["COM4", "COM5"]
      { serialPort := some "COM4"
        ser := some { port := "COM4", isOpen := true, writeRes := WriteRes.ok }
        savedPort := none }).1.serialPort = some "COM4" ∧
    (handle_set_serial_port (some "COM4") ["COM4", "COM5"]
      { serialPort := some "COM4"
        ser := some { port := "COM4", isOpen := true, writeRes := WriteRes.ok }
        savedPort := none }).2 =
      [PortAction.emitLog "info" "Serial port explicitly set to: COM4",
       PortAction.saveConfig (some "COM4"),
       PortAction.emitStatus "success" "Connected to COM4" (some "COM4")] :=
  reselect_same_connected_port_keeps_handle "COM4" ["COM4", "COM5"]
    { serialPort := some "COM4"
      ser := some { port := "COM4", isOpen := true, writeRes := WriteRes.ok }
      savedPort := none }
    { port := "COM4", isOpen := true, writeRes := WriteRes.ok }
    (by decide) rfl rfl rfl rfl

/-- C3: an empty command posted to the gateway entry point is rejected by
the `if not command_str` guard of `send_command_route` before
`send_command_to_mcu` runs: the route answers with the NotSent failure and
the trace shows no lock-acquire attempt, no lock activity, and no read or
write on the connection handle, for every lock and handle state. -/
theorem empty_command_rejected_without_lock_or_io (lockAvailable : Bool)
    (ser : Option SerialHandle) :
    (send_command_route (some "") lockAvailable ser).1 =
      RouteResult.failure "No command provided." 400 ∧
    (send_command_route (some "") lockAvailable ser).2.lockAcquireAttempts = 0 ∧
    (send_command_route (some "") lockAvailable ser).2.writeAttempts = [] ∧
    (send_command_route (some "") lockAvailable ser).2 = emptySendTrace := by
  exact ⟨rfl, rfl, rfl, rfl⟩

/-- C4: decoding is total — every line yields `Except.ok` (the
`except ValueError` handlers of the `DATA`/`EQUALIZED` branches cover every
exception their bodies can raise, and the `STATUS` branch catches all) —
and numeric-conversion failures inside `DATA`, `EQUALIZED` and `STATUS`
lines degrade to a `DeviceLog` error event citing the original line. -/
theorem decode_total_and_conversion_failures_degrade (line : String) :
    (∃ es, decodeLine line = Except.ok es) ∧
    ((pySplit line).headD "" = "DATA" → (pySplit line).length = 7 →
      (pyFloat ((pySplit line).getD 1 "") = none ∨
       pyFloat ((pySplit line).getD 2 "") = none ∨
       pyFloat ((pySplit line).getD 3 "") = none ∨
       pyFloat ((pySplit line).getD 4 "") = none) →
      decodeLine line =
        Except.ok [DeviceEvent.deviceLog "error" ("Data parse error: " ++ line)]) ∧
    ((pySplit line).headD "" = "EQUALIZED" → (pySplit line).length = 4 →
      (pyFloat ((pySplit line).getD 1 "") = none ∨
       pyFloat ((pySplit line).getD 3 "") = none) →
      decodeLine line =
        Except.ok [DeviceEvent.deviceLog "error" ("Equalization parse error: " ++ line)]) ∧
    ((pySplit line).headD "" = "STATUS" → 10 ≤ (pySplit line).length →
      (pyFloat ((pySplit line).getD 1 "") = none ∨
       pyFloat ((pySplit line).getD 2 "") = none ∨
       pyFloat ((pySplit line).getD 3 "") = none ∨
       pyFloat ((pySplit line).getD 4 "") = none ∨
       pyInt ((pySplit line).getD 7 "") = none ∨
       pyFloat ((pySplit line).getD 9 "") = none) →
      ∃ m, decodeLine line =
        Except.ok [DeviceEvent.deviceLog "error"
          ("Error parsing STATUS: " ++ m ++ " (Line: " ++ line ++ ")")]) := by
  refine ⟨decodeLine_ok line, ?_, ?_, ?_⟩
  · intro hhead hlen hbad
    have hne := line_ne_empty_of_head line "DATA" (by decide) hhead
    obtain ⟨m, hm⟩ := dataBody_valueError (pySplit line) hbad
    rw [decodeLine_eq_dispatch line hne, dispatchParts_data line _ hhead hlen,
        catchValueError_of_valueError _ m hm]
  · intro hhead hlen hbad
    have hne := line_ne_empty_of_head line "EQUALIZED" (by decide) hhead
    obtain ⟨m, hm⟩ := equalizedBody_valueError (pySplit line) hbad
    rw [decodeLine_eq_dispatch line hne, dispatchParts_equalized line _ hhead hlen,
        catchValueError_of_valueError _ m hm]
  · intro hhead hlen hbad
    have hne := line_ne_empty_of_head line "STATUS" (by decide) hhead
    obtain ⟨e, he⟩ := statusBody_error (pySplit line) hbad
    refine ⟨e.message, ?_⟩
    rw [decodeLine_eq_dispatch line hne, dispatchParts_status line _ hhead hlen,
        catchAllExc_of_error _ e he]

/-- C4 witness: a DATA line with a non-numeric temperature field decodes
to the error log citing the original line (and in particular does not
raise). -/
theorem decode_total_witness :
    decodeLine "DATA,1,x,3,4,A,B" =
      Except.ok [DeviceEvent.deviceLog "error" "Data parse error: DATA,1,x,3,4,A,B"] :=
  (decode_total_and_conversion_failures_degrade "DATA,1,x,3,4,A,B").2.1
    (by decide) (by decide) (Or.inr (Or.inl (by decide)))

/-- C5: every line whose first field is `DATA`, with exactly 7 fields and
numeric text in fields 2-5, decodes to a Telemetry event carrying the
parsed values of fields 2-5 and fields 6 and 7 verbatim. -/
theorem data_line_yields_telemetry (line : String) (a b c d : ℚ)
    (hhead : (pySplit line).headD "" = "DATA")
    (hlen : (pySplit line).length = 7)
    (h1 : pyFloat ((pySplit line).getD 1 "") = some a)
    (h2 : pyFloat ((pySplit line).getD 2 "") = some b)
    (h3 : pyFloat ((pySplit line).getD 3 "") = some c)
    (h4 : pyFloat ((pySplit line).getD 4 "") = some d) :
    decodeLine line = Except.ok
      [DeviceEvent.telemetry a b c d
        ((pySplit line).getD 5 "") ((pySplit line).getD 6 "")] := by
  have hne := line_ne_empty_of_head line "DATA" (by decide) hhead
  rw [decodeLine_eq_dispatch line hne, dispatchParts_data line _ hhead hlen,
      catchValueError_of_ok _ _ (dataBody_eq_ok _ a b c d h1 h2 h3 h4)]

/-- C5 witness: the specification example line. -/
theorem data_line_yields_telemetry_witness :
    decodeLine "DATA,12.5,68.2,64.0,68.0,HEATING,AUTO" =
      Except.ok [DeviceEvent.telemetry (mkRat 25 2) (mkRat 341 5) (mkRat 64 1)
        (mkRat 68 1) "HEATING" "AUTO"] :=
  data_line_yields_telemetry "DATA,12.5,68.2,64.0,68.0,HEATING,AUTO"
    (mkRat 25 2) (mkRat 341 5) (mkRat 64 1) (mkRat 68 1)
    (by decide) (by decide) (by decide) (by decide) (by decide) (by decide)

/-- C6: every `STATUS` line with at least 10 fields and well-formed numeric
fields decodes to a StatusSnapshot whose `is_equalizing` flag is the
comparison of field 9 against the literal `TIMING_EQ`, and that flag is
true exactly when field 9 equals `TIMING_EQ`. -/
theorem status_line_is_equalizing_iff (line : String) (a b c d sp : ℚ) (f : ℤ)
    (hhead : (pySplit line).headD "" = "STATUS")
    (hlen : 10 ≤ (pySplit line).length)
    (h1 : pyFloat ((pySplit line).getD 1 "") = some a)
    (h2 : pyFloat ((pySplit line).getD 2 "") = some b)
    (h3 : pyFloat ((pySplit line).getD 3 "") = some c)
    (h4 : pyFloat ((pySplit line).getD 4 "") = some d)
    (h7 : pyInt ((pySplit line).getD 7 "") = some f)
    (h9 : pyFloat ((pySplit line).getD 9 "") = some sp) :
    decodeLine line = Except.ok
      [DeviceEvent.statusSnapshot a b c d
        ((pySplit line).getD 5 "") ((pySplit line).getD 6 "")
        f ((pySplit line).getD 8 "" == "TIMING_EQ") sp] ∧
    (((pySplit line).getD 8 "" == "TIMING_EQ") = true ↔
      (pySplit line).getD 8 "" = "TIMING_EQ") := by
  have hne := line_ne_empty_of_head line "STATUS" (by decide) hhead
  constructor
  · rw [decodeLine_eq_dispatch line hne, dispatchParts_status line _ hhead hlen,
        catchAllExc_of_ok _ _ (statusBody_eq_ok _ a b c d sp f h1 h2 h3 h4 h7 h9)]
  · exact beq_iff_eq

/-- C6 witness: the specification example line with `TIMING_EQ` in field 9
yields `is_equalizing = true`, and the same line with `NOT_EQ` yields
`is_equalizing = false`. -/
theorem status_line_is_equalizing_iff_witness :
    decodeLine "STATUS,1,2,3,4,IDLE,MANUAL,1000,TIMING_EQ,99.9" =
      Except.ok [DeviceEvent.statusSnapshot (mkRat 1 1) (mkRat 2 1) (mkRat 3 1)
        (mkRat 4 1) "IDLE" "MANUAL" 1000 true (mkRat 999 10)] ∧
    decodeLine "STATUS,1,2,3,4,IDLE,MANUAL,1000,NOT_EQ,99.9" =
      Except.ok [DeviceEvent.statusSnapshot (mkRat 1 1) (mkRat 2 1) (mkRat 3 1)
        (mkRat 4 1) "IDLE" "MANUAL" 1000 false (mkRat 999 10)] :=
  ⟨(status_line_is_equalizing_iff "STATUS,1,2,3,4,IDLE,MANUAL,1000,TIMING_EQ,99.9"
      (mkRat 1 1) (mkRat 2 1) (mkRat 3 1) (mkRat 4 1) (mkRat 999 10) 1000
      (by decide) (by decide) (by decide) (by decide) (by decide) (by decide)
      (by decide) (by decide)).1,
   (status_line_is_equalizing_iff "STATUS,1,2,3,4,IDLE,MANUAL,1000,NOT_EQ,99.9"
      (mkRat 1 1) (mkRat 2 1) (mkRat 3 1) (mkRat 4 1) (mkRat 999 10) 1000
      (by decide) (by decide) (by decide) (by decide) (by decide) (by decide)
      (by decide) (by decide)).1⟩

/-- C7: a line whose first field is `DATA` but whose field count is not 7
falls through every tagged branch (the arity test is part of the branch
guard, before any conversion is attempted) and decodes to the unrecognized
line event — never a Telemetry. -/
theorem data_wrong_arity_never_telemetry (line : String)
    (hhead : (pySplit line).headD "" = "DATA")
    (hlen : (pySplit line).length ≠ 7) :
    decodeLine line = Except.ok [DeviceEvent.unrecognizedLine line] := by
  have hne := line_ne_empty_of_head line "DATA" (by decide) hhead
  rw [decodeLine_eq_dispatch line hne]
  unfold dispatchParts
  have h1 : ¬((pySplit line).headD "" = "DATA" ∧ (pySplit line).length = 7) := by
    rintro ⟨-, h⟩; exact hlen h
  have h2 : ¬((pySplit line).headD "" = "EQUALIZED" ∧ (pySplit line).length = 4) := by
    rintro ⟨h, -⟩; rw [hhead] at h; exact absurd h (by decide)
  have h3 : ¬((pySplit line).headD "" = "STATUS" ∧ 10 ≤ (pySplit line).length) := by
    rintro ⟨h, -⟩; rw [hhead] at h; exact absurd h (by decide)
  have h4 : ¬((pySplit line).headD "" = "INFO" ∨ (pySplit line).headD "" = "ERROR"
      ∨ (pySplit line).headD "" = "CMD_RECV" ∨ (pySplit line).headD "" = "WARN") := by
    rw [hhead]; decide
  rw [if_neg h1, if_neg h2, if_neg h3, if_neg h4]

/-- C7 witness: a 3-field DATA line is reported as unrecognized. -/
theorem data_wrong_arity_never_telemetry_witness :
    decodeLine "DATA,1,2" = Except.ok [DeviceEvent.unrecognizedLine "DATA,1,2"] :=
  data_wrong_arity_never_telemetry "DATA,1,2" (by decide) (by decide)

/-- C8: when the bounded 2-second lock acquisition fails, the gateway
returns `False`, publishes exactly the internal-error diagnostic, performs
no write on the handle, makes no second acquisition attempt (no retry);
and on every execution path, whenever the lock was acquired the `finally`
block has released it before the call returns. -/
theorem gateway_lock_timeout_and_always_releases (cmd : String)
    (lockAvailable : Bool) (ser : Option SerialHandle) :
    ((send_command_to_mcu cmd false ser).result = false ∧
     (send_command_to_mcu cmd false ser).emits =
       [Emit.mcuLog "error" ("Internal server error: Lock timeout sending " ++ cmd)] ∧
     (send_command_to_mcu cmd false ser).writeAttempts = [] ∧
     (send_command_to_mcu cmd false ser).lockAcquireAttempts = 1) ∧
    ((send_command_to_mcu cmd lockAvailable ser).lockAcquired = true →
      (send_command_to_mcu cmd lockAvailable ser).lockReleased = true) := by
  refine ⟨⟨rfl, rfl, rfl, rfl⟩, ?_⟩
  cases lockAvailable with
  | false => intro hacq; exact absurd hacq (by simp [send_command_to_mcu])
  | true =>
    rcases ser with _ | ⟨p, o, w⟩
    · intro _; rfl
    · cases o
      · intro _; rfl
      · cases w
        · intro _; rfl
        · intro _; rfl
        · intro _; rfl

/-- C8 witness: a send on an open connected handle acquires and then
releases the lock. -/
theorem gateway_lock_timeout_and_always_releases_witness :
    (send_command_to_mcu "GET_STATUS" true
      (some { port := "COM3", isOpen := true, writeRes := WriteRes.ok })).lockReleased
      = true :=
  (gateway_lock_timeout_and_always_releases "GET_STATUS" true
    (some { port := "COM3", isOpen := true, writeRes := WriteRes.ok })).2 (by decide)

/-- C9: encoding a non-empty, newline-free command appends exactly one
newline terminator, and the device-side split of the wire text at the
newline recovers the original command text. -/
theorem encode_roundtrip (cmd : String) (hne : cmd ≠ "")
    (hnl : '\n' ∉ cmd.data) :
    deviceFirstToken (encodeCommand cmd) = cmd := by
  obtain ⟨l⟩ := cmd
  have hl : '\n' ∉ l := hnl
  show String.mk (takeUntilNewline ((String.mk l ++ "\n").data)) = String.mk l
  have hd : (String.mk l ++ ("\n" : String)).data = l ++ '\n' :: [] := rfl
  rw [hd, takeUntilNewline_append_newline l [] hl]

/-- C9 witness: the round trip at the GET_STATUS command. -/
theorem encode_roundtrip_witness :
    deviceFirstToken (encodeCommand "GET_STATUS") = "GET_STATUS" :=
  encode_roundtrip "GET_STATUS" (by decide) (by decide)

/-- C10: a reselection request carrying the auto-detect sentinel (the
empty string) sets the configured port to the head of the enumerated port
list — `none` when the list is empty — and persists exactly that selection
to the config store (the `save_config` action) during the handler run. -/
theorem auto_detect_selects_first_enumerated_port (avail : List String)
    (st : AppState) :
    (handle_set_serial_port (some "") avail st).1.serialPort = avail.head? ∧
    (handle_set_serial_port (some "") avail st).1.savedPort = some avail.head? ∧
    PortAction.saveConfig avail.head? ∈ (handle_set_serial_port (some "") avail st).2 := by
  unfold handle_set_serial_port
  cases avail with
  | nil => simp
  | cons p ps => simp

end FermaSense
